import Mathlib

set_option maxRecDepth 2000
set_option linter.unnecessarySeqFocus false

/-!
Shallow embedding of the image-generation relay (repository
`Akamalshaikh/img-gen-api`): the retry orchestrator `get_magic_image`
in its two source variants (`src/app.py` with process-wide credential
state, `src/api/index.py` with fresh credentials per attempt) and the
HTTP handler `handle_generation_request`.

Modelling conventions:
- One call to `requests.post` is one consumed element of an outcome
  stream `o : Nat → AttemptOutcome` (index = attempt number).
- A credential pair (`anonymous_user_id`, `client_id`) is represented
  by the index of the `uuid.uuid4()` draw that produced it: each call
  to the key generator yields the next index of a fresh-key counter.
  Two pairs are equal iff their indices are equal (UUID collisions are
  treated as impossible, as the spec does).
- `time.sleep(d)` is recorded in a trace of sleep durations.
- Bytes are `List Nat`; response text is `String`.
-/

/-- A raw HTTP response as the Python code observes it:
`response.status_code`, `response.content` (bytes), the `Content-Type`
header with `''` as the default when absent, and `response.text`. -/
structure UpstreamResponse where
  status_code : Nat
  content : List Nat
  content_type : String
  text : String
deriving DecidableEq, Repr

/-- Result of one `requests.post` call: either a response, or one of the
two exception classes the source catches (`requests.exceptions.Timeout`,
`requests.exceptions.RequestException` with its message string). -/
inductive AttemptOutcome where
  | response (r : UpstreamResponse)
  | timeout
  | network (detail : String)
deriving DecidableEq, Repr

/-- The first component of the Python triple returned by
`get_magic_image`: either raw image bytes or an error dict with an
`error` message and an optional `details` string. -/
inductive PyData where
  | bytes (b : List Nat)
  | errObj (message : String) (details : Option String)
deriving DecidableEq, Repr

/-- The triple `(image_data, mime_type, status_code)` returned by
`get_magic_image`. -/
structure GenResult where
  data : PyData
  mime : Option String
  status : Nat
deriving DecidableEq, Repr

/-- Python string slicing `s[:n]`: the first `n` characters, or all of
`s` when it is shorter. -/
def strTake (s : String) (n : Nat) : String :=
  (s.toList.take n).asString

/-- Python `'needle' in hay` on strings: substring containment. -/
def strContains (hay needle : String) : Bool :=
  decide (List.IsInfix needle.toList hay.toList)

/-- Python truthiness of `response.content` (bytes): non-empty. -/
def pyTruthyBytes (b : List Nat) : Bool := !b.isEmpty

/-- Python truthiness of the `image_data` component: bytes are truthy
iff non-empty; an error dict always has at least the `error` key, so it
is truthy. -/
def pyTruthyData : PyData → Bool
  | .bytes b => pyTruthyBytes b
  | .errObj _ _ => true

/-- Python truthiness of the `mime_type` component (`None` or a
string): truthy iff present and non-empty. -/
def pyTruthyMime : Option String → Bool
  | none => false
  | some s => !(s = "")

/-- Full record of one orchestrator run: the returned triple, the
credential-pair index used by each attempt (one entry per upstream
POST, in order), the `time.sleep` durations in order, and whether the
returned value was the post-loop fallback (loop exhausted). -/
structure RunTrace where
  result : GenResult
  keysUsed : List Nat
  sleeps : List Nat
  fellThrough : Bool
deriving DecidableEq, Repr

/-- `src/app.py` line 129: the return after the loop. -/
def appFallback : GenResult :=
  ⟨.errObj "Failed to get image after all retries." none, none, 500⟩

/-- `src/api/index.py` line 91: the return after the loop. -/
def indexFallback : GenResult :=
  ⟨.errObj "Failed after all retries" none, none, 500⟩

/-- The attempt loop of `get_magic_image` in `src/app.py` (lines
45-127).  `fuel` is the number of loop iterations left
(`max_retries - attempt`), `attempt` the current index, `curKeys` the
global `current_anon_id`/`current_client_id` pair (`none` when unset),
`fresh` the next fresh-key index.  Branches mirror the source:
- 200 with truthy content and `'image' in content_type` → return
  `(content, content_type, 200)`;
- 200 otherwise → `({'error': 'API returned 200 OK but no image'}, None, 500)`;
- 422 with attempts remaining → `generate_new_keys()`, `sleep(1)`,
  continue; on the last attempt → `({'error': 'Keys rejected after
  multiple attempts'}, None, 422)`;
- any other status → `({'error': f'API Error: {status}', 'details':
  text[:500]}, None, status)`;
- `Timeout` with attempts remaining → `sleep(2)`, continue (keys kept);
  else `({'error': 'Request timeout after multiple attempts'}, None, 504)`;
- `RequestException` with attempts remaining → `sleep(2)`, continue;
  else `({'error': 'Network error', 'details': str(e)}, None, 503)`. -/
def appAttempts (o : Nat → AttemptOutcome) :
    Nat → Nat → Option Nat → Nat → RunTrace
  | 0, _, _, _ => ⟨appFallback, [], [], true⟩
  | fuel + 1, attempt, curKeys, fresh =>
    let kf : Nat × Nat :=
      match curKeys with
      | none => (fresh, fresh + 1)
      | some k => (k, fresh)
    let k := kf.1
    let fresh' := kf.2
    match o attempt with
    | .response r =>
      if r.status_code = 200 then
        if pyTruthyBytes r.content && strContains r.content_type "image" then
          ⟨⟨.bytes r.content, some r.content_type, 200⟩, [k], [], false⟩
        else
          ⟨⟨.errObj "API returned 200 OK but no image" none, none, 500⟩,
            [k], [], false⟩
      else if r.status_code = 422 then
        if fuel > 0 then
          let rest := appAttempts o fuel (attempt + 1) (some fresh') (fresh' + 1)
          ⟨rest.result, k :: rest.keysUsed, 1 :: rest.sleeps, rest.fellThrough⟩
        else
          ⟨⟨.errObj "Keys rejected after multiple attempts" none, none, 422⟩,
            [k], [], false⟩
      else
        ⟨⟨.errObj ("API Error: " ++ toString r.status_code)
            (some (strTake r.text 500)), none, r.status_code⟩, [k], [], false⟩
    | .timeout =>
      if fuel > 0 then
        let rest := appAttempts o fuel (attempt + 1) (some k) fresh'
        ⟨rest.result, k :: rest.keysUsed, 2 :: rest.sleeps, rest.fellThrough⟩
      else
        ⟨⟨.errObj "Request timeout after multiple attempts" none, none, 504⟩,
          [k], [], false⟩
    | .network e =>
      if fuel > 0 then
        let rest := appAttempts o fuel (attempt + 1) (some k) fresh'
        ⟨rest.result, k :: rest.keysUsed, 2 :: rest.sleeps, rest.fellThrough⟩
      else
        ⟨⟨.errObj "Network error" (some e), none, 503⟩, [k], [], false⟩

/-- `get_magic_image` of `src/app.py`: `max_retries = 3`, starting at
attempt 0 with the current global key state and fresh-key counter. -/
def app_get_magic_image (o : Nat → AttemptOutcome)
    (curKeys : Option Nat) (fresh : Nat) : RunTrace :=
  appAttempts o 3 0 curKeys fresh

/-- The attempt loop of `get_magic_image` in `src/api/index.py` (lines
23-89).  Identical branch structure to the `app.py` variant except:
fresh keys are generated at the top of every iteration (line 26), the
422 branch does not regenerate separately (the next iteration draws
anyway), the last-attempt timeout message is `'Request timeout'`, and
the fallback message is `'Failed after all retries'`. -/
def indexAttempts (o : Nat → AttemptOutcome) :
    Nat → Nat → Nat → RunTrace
  | 0, _, _ => ⟨indexFallback, [], [], true⟩
  | fuel + 1, attempt, fresh =>
    let k := fresh
    match o attempt with
    | .response r =>
      if r.status_code = 200 then
        if pyTruthyBytes r.content && strContains r.content_type "image" then
          ⟨⟨.bytes r.content, some r.content_type, 200⟩, [k], [], false⟩
        else
          ⟨⟨.errObj "API returned 200 OK but no image" none, none, 500⟩,
            [k], [], false⟩
      else if r.status_code = 422 then
        if fuel > 0 then
          let rest := indexAttempts o fuel (attempt + 1) (k + 1)
          ⟨rest.result, k :: rest.keysUsed, 1 :: rest.sleeps, rest.fellThrough⟩
        else
          ⟨⟨.errObj "Keys rejected after multiple attempts" none, none, 422⟩,
            [k], [], false⟩
      else
        ⟨⟨.errObj ("API Error: " ++ toString r.status_code)
            (some (strTake r.text 500)), none, r.status_code⟩, [k], [], false⟩
    | .timeout =>
      if fuel > 0 then
        let rest := indexAttempts o fuel (attempt + 1) (k + 1)
        ⟨rest.result, k :: rest.keysUsed, 2 :: rest.sleeps, rest.fellThrough⟩
      else
        ⟨⟨.errObj "Request timeout" none, none, 504⟩, [k], [], false⟩
    | .network e =>
      if fuel > 0 then
        let rest := indexAttempts o fuel (attempt + 1) (k + 1)
        ⟨rest.result, k :: rest.keysUsed, 2 :: rest.sleeps, rest.fellThrough⟩
      else
        ⟨⟨.errObj "Network error" (some e), none, 503⟩, [k], [], false⟩

/-- `get_magic_image` of `src/api/index.py`: `max_retries = 3`,
starting at attempt 0 with fresh-key counter `fresh`. -/
def index_get_magic_image (o : Nat → AttemptOutcome) (fresh : Nat) :
    RunTrace :=
  indexAttempts o 3 0 fresh

/-! # HTTP handler -/

/-- Python whitespace for `str.strip()` (the ASCII whitespace
characters; the claims never involve the wider Unicode set). -/
def pyIsSpace (c : Char) : Bool :=
  c = ' ' || c = '\t' || c = '\n' || c = '\x0d' || c = '\x0b' || c = '\x0c'

/-- Python `s.strip()`: drop leading and trailing whitespace. -/
def pyStrip (s : String) : String :=
  (((s.toList.dropWhile pyIsSpace).reverse.dropWhile pyIsSpace).reverse).asString

/-- An inbound request to `/api/generate` as the handler observes it:
a GET with an optional `prompt` query parameter, or a POST whose
`request.get_json()` either raises, returns a falsy value (no/empty
JSON body), or yields a dict with an optional string `prompt` field. -/
inductive InboundRequest where
  | get (prompt : Option String)
  | postInvalidJson (detail : String)
  | postNoBody
  | post (prompt : Option String)
deriving DecidableEq, Repr

/-- The handler's response: a `send_file` binary body with a mimetype,
a `jsonify`-ed dict with a status code, or the `TypeError` Flask would
surface if `send_file(BytesIO(...))` were reached with a non-bytes
`image_data` (shown unreachable below). Ancillary JSON keys of the 400
responses (`example`, `usage`) are elided; the `error` message and
status are kept. -/
inductive HandlerResponse where
  | file (b : List Nat) (mimetype : String)
  | json (d : PyData) (status : Nat)
  | sendFileError
deriving DecidableEq, Repr

/-- The shared tail of the handler after prompt extraction
(`src/app.py` lines 165-179, `src/api/index.py` lines 152-166):
`if not prompt or not prompt.strip()` → 400 `Prompt cannot be empty`;
else call `get_magic_image(prompt.strip())` (abstracted as `gen`) and
`if image_data and mime_type` send the file, else
`jsonify(image_data), status_code`.  The returned `Bool` records
whether `gen` was invoked. -/
def checkAndGenerate (gen : String → GenResult)
    (prompt : Option String) : HandlerResponse × Bool :=
  if prompt = none || prompt.getD "" = "" || pyStrip (prompt.getD "") = "" then
    (.json (.errObj "Prompt cannot be empty" none) 400, false)
  else
    let r := gen (pyStrip (prompt.getD ""))
    if pyTruthyData r.data && pyTruthyMime r.mime then
      match r.data, r.mime with
      | .bytes b, some m => (.file b m, true)
      | _, _ => (.sendFileError, true)
    else
      (.json r.data r.status, true)

/-- `handle_generation_request` (`src/app.py` lines 135-179,
`src/api/index.py` lines 122-166; the two are identical up to the
wording of the ancillary keys elided here): extract the prompt per
method, returning 400 for a falsy GET prompt, a raising `get_json`, or
a falsy JSON body, then run the shared tail `checkAndGenerate`. -/
def handle_generation_request (gen : String → GenResult)
    (req : InboundRequest) : HandlerResponse × Bool :=
  match req with
  | .get p =>
    if p = none || p.getD "" = "" then
      (.json (.errObj "Missing 'prompt' parameter" none) 400, false)
    else
      checkAndGenerate gen p
  | .postInvalidJson e =>
    (.json (.errObj "Invalid JSON" (some e)) 400, false)
  | .postNoBody =>
    (.json (.errObj "Request body must be JSON" none) 400, false)
  | .post p => checkAndGenerate gen p

/-- Python truthiness of the prompt extracted by the handler: blank
means missing (`None`), empty, or whitespace-only. -/
def promptBlank : Option String → Bool
  | none => true
  | some s => s = "" || pyStrip s = ""

/-- Requests whose prompt is missing, empty or whitespace-only (the
two malformed-POST shapes carry no prompt at all). -/
def requestBlank : InboundRequest → Bool
  | .get p => promptBlank p
  | .postInvalidJson _ => true
  | .postNoBody => true
  | .post p => promptBlank p

/-! # Theorems -/

/-- C1: if the first upstream attempt answers HTTP 200 with a
non-empty body and an image Content-Type, both variants of
`get_magic_image` return exactly that body and content type with
status 200, perform exactly one upstream POST, and sleep never. -/
theorem C1_image_success_first_attempt
    (o : Nat → AttemptOutcome) (r : UpstreamResponse) (k0 fresh fresh2 : Nat)
    (h0 : o 0 = .response r) (h200 : r.status_code = 200)
    (hbody : pyTruthyBytes r.content = true)
    (hct : strContains r.content_type "image" = true) :
    app_get_magic_image o (some k0) fresh =
      ⟨⟨.bytes r.content, some r.content_type, 200⟩, [k0], [], false⟩ ∧
    index_get_magic_image o fresh2 =
      ⟨⟨.bytes r.content, some r.content_type, 200⟩, [fresh2], [], false⟩ := by
  constructor <;>
    simp [app_get_magic_image, index_get_magic_image, appAttempts,
      indexAttempts, h0, h200, hbody, hct]

theorem C1_witness :
    app_get_magic_image
        (fun _ => .response ⟨200, [7, 8], "image/png", ""⟩) (some 4) 9 =
      ⟨⟨.bytes [7, 8], some "image/png", 200⟩, [4], [], false⟩ ∧
    index_get_magic_image
        (fun _ => .response ⟨200, [7, 8], "image/png", ""⟩) 11 =
      ⟨⟨.bytes [7, 8], some "image/png", 200⟩, [11], [], false⟩ :=
  C1_image_success_first_attempt
    (fun _ => .response ⟨200, [7, 8], "image/png", ""⟩)
    ⟨200, [7, 8], "image/png", ""⟩ 4 9 11 rfl rfl (by decide) (by decide)

/-- C4: if the first attempt answers HTTP 200 but the body is empty or
the Content-Type lacks `image`, both variants terminate at once with
status 500, message `API returned 200 OK but no image`, one POST, no
retry. -/
theorem C4_empty_body_terminal
    (o : Nat → AttemptOutcome) (r : UpstreamResponse) (k0 fresh fresh2 : Nat)
    (h0 : o 0 = .response r) (h200 : r.status_code = 200)
    (hfail : pyTruthyBytes r.content = false ∨
      strContains r.content_type "image" = false) :
    app_get_magic_image o (some k0) fresh =
      ⟨⟨.errObj "API returned 200 OK but no image" none, none, 500⟩,
        [k0], [], false⟩ ∧
    index_get_magic_image o fresh2 =
      ⟨⟨.errObj "API returned 200 OK but no image" none, none, 500⟩,
        [fresh2], [], false⟩ := by
  rcases hfail with hf | hf <;>
    constructor <;>
      simp [app_get_magic_image, index_get_magic_image, appAttempts,
        indexAttempts, h0, h200, hf]

theorem C4_witness :
    app_get_magic_image
        (fun _ => .response ⟨200, [3], "text/plain", "x"⟩) (some 0) 1 =
      ⟨⟨.errObj "API returned 200 OK but no image" none, none, 500⟩,
        [0], [], false⟩ ∧
    index_get_magic_image
        (fun _ => .response ⟨200, [3], "text/plain", "x"⟩) 2 =
      ⟨⟨.errObj "API returned 200 OK but no image" none, none, 500⟩,
        [2], [], false⟩ :=
  C4_empty_body_terminal (fun _ => .response ⟨200, [3], "text/plain", "x"⟩)
    ⟨200, [3], "text/plain", "x"⟩ 0 1 2 rfl rfl (Or.inr (by decide))

/-- C5: if the first attempt answers any status other than 200 and
422, both variants terminate at once with that status, message
`API Error: <status>`, details the first 500 characters of the body,
one POST, no retry. -/
theorem C5_upstream_error_terminal
    (o : Nat → AttemptOutcome) (r : UpstreamResponse) (k0 fresh fresh2 : Nat)
    (h0 : o 0 = .response r) (hne200 : r.status_code ≠ 200)
    (hne422 : r.status_code ≠ 422) :
    app_get_magic_image o (some k0) fresh =
      ⟨⟨.errObj ("API Error: " ++ toString r.status_code)
          (some (strTake r.text 500)), none, r.status_code⟩, [k0], [], false⟩ ∧
    index_get_magic_image o fresh2 =
      ⟨⟨.errObj ("API Error: " ++ toString r.status_code)
          (some (strTake r.text 500)), none, r.status_code⟩,
        [fresh2], [], false⟩ := by
  constructor <;>
    simp [app_get_magic_image, index_get_magic_image, appAttempts,
      indexAttempts, h0, hne200, hne422]

theorem C5_witness :
    app_get_magic_image
        (fun _ => .response ⟨503, [], "text/plain", "oops"⟩) (some 0) 1 =
      ⟨⟨.errObj "API Error: 503" (some "oops"), none, 503⟩, [0], [], false⟩ ∧
    index_get_magic_image
        (fun _ => .response ⟨503, [], "text/plain", "oops"⟩) 2 =
      ⟨⟨.errObj "API Error: 503" (some "oops"), none, 503⟩, [2], [], false⟩ :=
  C5_upstream_error_terminal (fun _ => .response ⟨503, [], "text/plain", "oops"⟩)
    ⟨503, [], "text/plain", "oops"⟩ 0 1 2 rfl (by decide) (by decide)

/-- C2: if every attempt is answered with HTTP 422, both variants
perform exactly 3 upstream POSTs, draw a fresh credential pair before
each retry (the app.py variant regenerates on rejection, the index.py
variant draws at the top of every iteration), sleep 1 time unit before
each retry, and return status 422 with message
`Keys rejected after multiple attempts`. -/
theorem C2_rejected_all_attempts
    (o : Nat → AttemptOutcome) (k0 fresh fresh2 : Nat)
    (h : ∀ i, i < 3 → ∃ r, o i = .response r ∧ r.status_code = 422) :
    app_get_magic_image o (some k0) fresh =
      ⟨⟨.errObj "Keys rejected after multiple attempts" none, none, 422⟩,
        [k0, fresh, fresh + 1], [1, 1], false⟩ ∧
    index_get_magic_image o fresh2 =
      ⟨⟨.errObj "Keys rejected after multiple attempts" none, none, 422⟩,
        [fresh2, fresh2 + 1, fresh2 + 2], [1, 1], false⟩ := by
  obtain ⟨r0, e0, s0⟩ := h 0 (by norm_num)
  obtain ⟨r1, e1, s1⟩ := h 1 (by norm_num)
  obtain ⟨r2, e2, s2⟩ := h 2 (by norm_num)
  constructor <;>
    simp [app_get_magic_image, index_get_magic_image, appAttempts,
      indexAttempts, e0, e1, e2, s0, s1, s2]

theorem C2_witness :
    app_get_magic_image
        (fun _ => .response ⟨422, [], "", "no"⟩) (some 0) 1 =
      ⟨⟨.errObj "Keys rejected after multiple attempts" none, none, 422⟩,
        [0, 1, 2], [1, 1], false⟩ ∧
    index_get_magic_image (fun _ => .response ⟨422, [], "", "no"⟩) 5 =
      ⟨⟨.errObj "Keys rejected after multiple attempts" none, none, 422⟩,
        [5, 6, 7], [1, 1], false⟩ :=
  C2_rejected_all_attempts (fun _ => .response ⟨422, [], "", "no"⟩) 0 1 5
    (fun _ _ => ⟨⟨422, [], "", "no"⟩, rfl, rfl⟩)

/-- C3 (amended): if every attempt times out, both variants perform
exactly 3 attempts, keep sleeping 2 time units before each retry, and
return status 504; the api/index.py variant carries message
`Request timeout` while the app.py variant carries
`Request timeout after multiple attempts` (and app.py keeps the same
credential pair throughout while index.py draws fresh ones). -/
theorem C3_timeout_all_attempts
    (o : Nat → AttemptOutcome) (k0 fresh fresh2 : Nat)
    (h : ∀ i, i < 3 → o i = .timeout) :
    app_get_magic_image o (some k0) fresh =
      ⟨⟨.errObj "Request timeout after multiple attempts" none, none, 504⟩,
        [k0, k0, k0], [2, 2], false⟩ ∧
    index_get_magic_image o fresh2 =
      ⟨⟨.errObj "Request timeout" none, none, 504⟩,
        [fresh2, fresh2 + 1, fresh2 + 2], [2, 2], false⟩ := by
  have e0 := h 0 (by norm_num)
  have e1 := h 1 (by norm_num)
  have e2 := h 2 (by norm_num)
  constructor <;>
    simp [app_get_magic_image, index_get_magic_image, appAttempts,
      indexAttempts, e0, e1, e2]

theorem C3_witness :
    app_get_magic_image (fun _ => .timeout) (some 0) 1 =
      ⟨⟨.errObj "Request timeout after multiple attempts" none, none, 504⟩,
        [0, 0, 0], [2, 2], false⟩ ∧
    index_get_magic_image (fun _ => .timeout) 5 =
      ⟨⟨.errObj "Request timeout" none, none, 504⟩,
        [5, 6, 7], [2, 2], false⟩ :=
  C3_timeout_all_attempts (fun _ => .timeout) 0 1 5 (fun _ _ => rfl)

/-- C3 as stated is false for the `src/app.py` variant: with every
attempt timing out, its error message is
`Request timeout after multiple attempts`, not `Request timeout`. -/
theorem C3_counterexample :
    (app_get_magic_image (fun _ => .timeout) (some 0) 1).result.data ≠
        PyData.errObj "Request timeout" none ∧
      (app_get_magic_image (fun _ => .timeout) (some 0) 1).result.data =
        PyData.errObj "Request timeout after multiple attempts" none := by
  decide


/-- C6 (amended): after a timeout on the first attempt, the `app.py`
variant retries with the credential pair unchanged, while the
`api/index.py` variant generates keys at the top of every iteration
and so performs the retried attempt with a fresh pair. -/
theorem C6_timeout_retry_credentials
    (o : Nat → AttemptOutcome) (k0 fresh fresh2 : Nat)
    (h0 : o 0 = .timeout) :
    (∃ t, (app_get_magic_image o (some k0) fresh).keysUsed =
      k0 :: k0 :: t) ∧
    (∃ t, (index_get_magic_image o fresh2).keysUsed =
      fresh2 :: (fresh2 + 1) :: t) := by
  constructor
  · cases h1 : o 1 <;>
      simp [app_get_magic_image, appAttempts, h0, h1] <;>
      split_ifs <;> simp
  · cases h1 : o 1 <;>
      simp [index_get_magic_image, indexAttempts, h0, h1] <;>
      split_ifs <;> simp

theorem C6_witness :
    (∃ t, (app_get_magic_image (fun _ => .timeout) (some 3) 8).keysUsed =
      3 :: 3 :: t) ∧
    (∃ t, (index_get_magic_image (fun _ => .timeout) 5).keysUsed =
      5 :: 6 :: t) :=
  C6_timeout_retry_credentials (fun _ => .timeout) 3 8 5 rfl

/-- C6 as stated is false for the `src/api/index.py` variant: with
every attempt timing out, the credential-pair draws used by the three
attempts are 0, 1, 2, so the retried attempt does not reuse the
timed-out attempt's pair. -/
theorem C6_counterexample :
    (index_get_magic_image (fun _ => .timeout) 0).keysUsed = [0, 1, 2] ∧
      (0 : Nat) ≠ 1 := by
  decide

/-- A run of the `app.py` loop that fell through returned the
post-loop fallback value. -/
theorem appAttempts_fellThrough_result (o : Nat → AttemptOutcome) :
    ∀ fuel a ck fresh, (appAttempts o fuel a ck fresh).fellThrough = true →
      (appAttempts o fuel a ck fresh).result = appFallback := by
  intro fuel
  induction fuel with
  | zero => intro a ck fresh _; rfl
  | succ n ih =>
    intro a ck fresh
    cases ho : o a <;> simp only [appAttempts, ho] <;> split_ifs <;>
      simp_all

/-- A run of the `api/index.py` loop that fell through returned the
post-loop fallback value. -/
theorem indexAttempts_fellThrough_result (o : Nat → AttemptOutcome) :
    ∀ fuel a fresh, (indexAttempts o fuel a fresh).fellThrough = true →
      (indexAttempts o fuel a fresh).result = indexFallback := by
  intro fuel
  induction fuel with
  | zero => intro a fresh _; rfl
  | succ n ih =>
    intro a fresh
    cases ho : o a <;> simp only [indexAttempts, ho] <;> split_ifs <;>
      simp_all

/-- C8 (amended): a run of the attempt loop that completes all
iterations without a branch returning yields the post-loop fallback,
which is `Failure{500, "Failed after all retries"}` in the
`api/index.py` variant but `Failure{500, "Failed to get image after
all retries."}` in the `app.py` variant. -/
theorem C8_loop_exhausted_fallback
    (o o2 : Nat → AttemptOutcome) (fuel a fuel2 a2 : Nat)
    (ck : Option Nat) (fresh fresh2 : Nat) :
    ((appAttempts o fuel a ck fresh).fellThrough = true →
      (appAttempts o fuel a ck fresh).result =
        ⟨.errObj "Failed to get image after all retries." none, none, 500⟩) ∧
    ((indexAttempts o2 fuel2 a2 fresh2).fellThrough = true →
      (indexAttempts o2 fuel2 a2 fresh2).result =
        ⟨.errObj "Failed after all retries" none, none, 500⟩) :=
  ⟨fun h => appAttempts_fellThrough_result o fuel a ck fresh h,
   fun h => indexAttempts_fellThrough_result o2 fuel2 a2 fresh2 h⟩

theorem C8_witness :
    (appAttempts (fun _ => .timeout) 0 3 (some 0) 1).result =
      ⟨.errObj "Failed to get image after all retries." none, none, 500⟩ ∧
    (indexAttempts (fun _ => .timeout) 0 3 1).result =
      ⟨.errObj "Failed after all retries" none, none, 500⟩ :=
  ⟨(C8_loop_exhausted_fallback (fun _ => .timeout) (fun _ => .timeout)
      0 3 0 3 (some 0) 1 1).1 rfl,
   (C8_loop_exhausted_fallback (fun _ => .timeout) (fun _ => .timeout)
      0 3 0 3 (some 0) 1 1).2 rfl⟩

/-- C8 as stated is false for the `src/app.py` variant: its exhausted
loop returns the message `Failed to get image after all retries.`, not
`Failed after all retries`. -/
theorem C8_counterexample :
    (appAttempts (fun _ => .timeout) 0 3 (some 0) 1).result ≠
      ⟨.errObj "Failed after all retries" none, none, 500⟩ := by
  decide

/-- One iteration of the `app.py` loop either sets the fell-through
flag to false (a branch returned) or hands over to the next iteration,
which only exists when at least one iteration remains. -/
theorem appAttempts_step_cases (o : Nat → AttemptOutcome)
    (fuel a : Nat) (ck : Option Nat) (fresh : Nat) :
    (appAttempts o (fuel + 1) a ck fresh).fellThrough = false ∨
    (0 < fuel ∧ ∃ ck2 fresh2,
      (appAttempts o (fuel + 1) a ck fresh).fellThrough =
        (appAttempts o fuel (a + 1) ck2 fresh2).fellThrough) := by
  cases ho : o a <;> simp only [appAttempts, ho] <;> split_ifs <;>
    first
      | exact Or.inl rfl
      | exact Or.inr ⟨by assumption, _, _, rfl⟩

/-- One iteration of the `api/index.py` loop either sets the
fell-through flag to false or hands over to the next iteration. -/
theorem indexAttempts_step_cases (o : Nat → AttemptOutcome)
    (fuel a fresh : Nat) :
    (indexAttempts o (fuel + 1) a fresh).fellThrough = false ∨
    (0 < fuel ∧ ∃ fresh2,
      (indexAttempts o (fuel + 1) a fresh).fellThrough =
        (indexAttempts o fuel (a + 1) fresh2).fellThrough) := by
  cases ho : o a <;> simp only [indexAttempts, ho] <;> split_ifs <;>
    first
      | exact Or.inl rfl
      | exact Or.inr ⟨by assumption, _, rfl⟩

/-- The `app.py` loop with at least one iteration never falls
through. -/
theorem appAttempts_no_fallthrough (o : Nat → AttemptOutcome) :
    ∀ fuel a ck fresh,
      (appAttempts o (fuel + 1) a ck fresh).fellThrough = false := by
  intro fuel
  induction fuel with
  | zero =>
    intro a ck fresh
    rcases appAttempts_step_cases o 0 a ck fresh with h | ⟨h0, _⟩
    · exact h
    · exact absurd h0 (by omega)
  | succ n ih =>
    intro a ck fresh
    rcases appAttempts_step_cases o (n + 1) a ck fresh with h | ⟨-, ck2, f2, h⟩
    · exact h
    · rw [h]; exact ih _ _ _

/-- The `api/index.py` loop with at least one iteration never falls
through. -/
theorem indexAttempts_no_fallthrough (o : Nat → AttemptOutcome) :
    ∀ fuel a fresh,
      (indexAttempts o (fuel + 1) a fresh).fellThrough = false := by
  intro fuel
  induction fuel with
  | zero =>
    intro a fresh
    rcases indexAttempts_step_cases o 0 a fresh with h | ⟨h0, _⟩
    · exact h
    · exact absurd h0 (by omega)
  | succ n ih =>
    intro a fresh
    rcases indexAttempts_step_cases o (n + 1) a fresh with h | ⟨-, f2, h⟩
    · exact h
    · rw [h]; exact ih _ _

/-- C10: the post-loop fallback of both variants is unreachable: for
every outcome stream and every starting credential state, the
3-attempt run returns from a branch inside the loop, never by
exhausting the loop. -/
theorem C10_fallback_unreachable (o o2 : Nat → AttemptOutcome)
    (ck : Option Nat) (fresh fresh2 : Nat) :
    (app_get_magic_image o ck fresh).fellThrough = false ∧
    (index_get_magic_image o2 fresh2).fellThrough = false :=
  ⟨appAttempts_no_fallthrough o 2 0 ck fresh,
   indexAttempts_no_fallthrough o2 2 0 fresh2⟩

/-- In any `app.py` run, a result carrying raw bytes can only have
been produced by the ImageSuccess branch of some attempt within the
fuel window, and it carries that attempt's body and content type. -/
theorem appAttempts_image_source (o : Nat → AttemptOutcome) :
    ∀ fuel a ck fresh b m s,
      (appAttempts o fuel a ck fresh).result = ⟨.bytes b, m, s⟩ →
      ∃ i r, a ≤ i ∧ i < a + fuel ∧ o i = .response r ∧
        r.status_code = 200 ∧ pyTruthyBytes r.content = true ∧
        strContains r.content_type "image" = true ∧
        b = r.content ∧ m = some r.content_type ∧ s = 200 := by
  intro fuel
  induction fuel with
  | zero =>
    intro a ck fresh b m s h
    simp [appAttempts, appFallback] at h
  | succ n ih =>
    intro a ck fresh b m s
    cases ho : o a with
    | response r =>
      simp only [appAttempts, ho]
      split_ifs with h200 himg h422 hfuel
      · dsimp only
        intro h
        simp only [GenResult.mk.injEq, PyData.bytes.injEq] at h
        rw [Bool.and_eq_true] at himg
        exact ⟨a, r, le_refl a, by omega, ho, h200, himg.1, himg.2,
          h.1.symm, h.2.1.symm, h.2.2.symm⟩
      · intro h; exact absurd h (by simp)
      · dsimp only
        intro h
        obtain ⟨i, r2, hi1, hi2, hrest⟩ := ih (a + 1) _ _ b m s h
        exact ⟨i, r2, by omega, by omega, hrest⟩
      · intro h; exact absurd h (by simp)
      · intro h; exact absurd h (by simp)
    | timeout =>
      simp only [appAttempts, ho]
      split_ifs with hfuel
      · dsimp only
        intro h
        obtain ⟨i, r2, hi1, hi2, hrest⟩ := ih (a + 1) _ _ b m s h
        exact ⟨i, r2, by omega, by omega, hrest⟩
      · intro h; exact absurd h (by simp)
    | network e =>
      simp only [appAttempts, ho]
      split_ifs with hfuel
      · dsimp only
        intro h
        obtain ⟨i, r2, hi1, hi2, hrest⟩ := ih (a + 1) _ _ b m s h
        exact ⟨i, r2, by omega, by omega, hrest⟩
      · intro h; exact absurd h (by simp)

/-- Same as `appAttempts_image_source` for the `api/index.py` loop. -/
theorem indexAttempts_image_source (o : Nat → AttemptOutcome) :
    ∀ fuel a fresh b m s,
      (indexAttempts o fuel a fresh).result = ⟨.bytes b, m, s⟩ →
      ∃ i r, a ≤ i ∧ i < a + fuel ∧ o i = .response r ∧
        r.status_code = 200 ∧ pyTruthyBytes r.content = true ∧
        strContains r.content_type "image" = true ∧
        b = r.content ∧ m = some r.content_type ∧ s = 200 := by
  intro fuel
  induction fuel with
  | zero =>
    intro a fresh b m s h
    simp [indexAttempts, indexFallback] at h
  | succ n ih =>
    intro a fresh b m s
    cases ho : o a with
    | response r =>
      simp only [indexAttempts, ho]
      split_ifs with h200 himg h422 hfuel
      · dsimp only
        intro h
        simp only [GenResult.mk.injEq, PyData.bytes.injEq] at h
        rw [Bool.and_eq_true] at himg
        exact ⟨a, r, le_refl a, by omega, ho, h200, himg.1, himg.2,
          h.1.symm, h.2.1.symm, h.2.2.symm⟩
      · intro h; exact absurd h (by simp)
      · dsimp only
        intro h
        obtain ⟨i, r2, hi1, hi2, hrest⟩ := ih (a + 1) _ b m s h
        exact ⟨i, r2, by omega, by omega, hrest⟩
      · intro h; exact absurd h (by simp)
      · intro h; exact absurd h (by simp)
    | timeout =>
      simp only [indexAttempts, ho]
      split_ifs with hfuel
      · dsimp only
        intro h
        obtain ⟨i, r2, hi1, hi2, hrest⟩ := ih (a + 1) _ b m s h
        exact ⟨i, r2, by omega, by omega, hrest⟩
      · intro h; exact absurd h (by simp)
    | network e =>
      simp only [indexAttempts, ho]
      split_ifs with hfuel
      · dsimp only
        intro h
        obtain ⟨i, r2, hi1, hi2, hrest⟩ := ih (a + 1) _ b m s h
        exact ⟨i, r2, by omega, by omega, hrest⟩
      · intro h; exact absurd h (by simp)

/-- The shared handler tail produces a file response only when the
core's result held those bytes and that mimetype. -/
theorem checkAndGenerate_file_source (gen : String → GenResult)
    (p : Option String) (b : List Nat) (m : String) (inv : Bool)
    (h : checkAndGenerate gen p = (.file b m, inv)) :
    ∃ q, (gen q).data = .bytes b ∧ (gen q).mime = some m := by
  simp only [checkAndGenerate] at h
  split_ifs at h
  · simp at h
  · split at h
    · rename_i b2 m2 hdata hmime
      simp only [Prod.mk.injEq, HandlerResponse.file.injEq] at h
      exact ⟨pyStrip (p.getD ""), by rw [hdata, h.1.1], by rw [hmime, h.1.2]⟩
    · simp at h
  · simp at h

/-- The handler produces a file response only when the core's result
held those bytes and that mimetype. -/
theorem handler_file_source (gen : String → GenResult) (req : InboundRequest)
    (b : List Nat) (m : String) (inv : Bool)
    (h : handle_generation_request gen req = (.file b m, inv)) :
    ∃ q, (gen q).data = .bytes b ∧ (gen q).mime = some m := by
  cases req with
  | postInvalidJson e => simp [handle_generation_request] at h
  | postNoBody => simp [handle_generation_request] at h
  | get p =>
    simp only [handle_generation_request] at h
    split_ifs at h
    · simp at h
    · exact checkAndGenerate_file_source gen p b m inv h
  | post p =>
    exact checkAndGenerate_file_source gen p b m inv h

/-- C7: in both variants, a result carrying raw image bytes arises
only from an attempt answered HTTP 200 with a non-empty body whose
Content-Type contains `image`, carrying exactly that attempt's body
and content type; and the HTTP handler sends a binary file body only
when the core's result was of that shape. -/
theorem C7_image_only_from_image_success :
    (∀ (o : Nat → AttemptOutcome) (ck : Option Nat) (fresh : Nat)
        (b : List Nat) (m : Option String) (s : Nat),
      (app_get_magic_image o ck fresh).result = ⟨.bytes b, m, s⟩ →
      ∃ i r, i < 3 ∧ o i = .response r ∧ r.status_code = 200 ∧
        pyTruthyBytes r.content = true ∧
        strContains r.content_type "image" = true ∧
        b = r.content ∧ m = some r.content_type ∧ s = 200) ∧
    (∀ (o : Nat → AttemptOutcome) (fresh : Nat) (b : List Nat)
        (m : Option String) (s : Nat),
      (index_get_magic_image o fresh).result = ⟨.bytes b, m, s⟩ →
      ∃ i r, i < 3 ∧ o i = .response r ∧ r.status_code = 200 ∧
        pyTruthyBytes r.content = true ∧
        strContains r.content_type "image" = true ∧
        b = r.content ∧ m = some r.content_type ∧ s = 200) ∧
    (∀ (gen : String → GenResult) (req : InboundRequest) (b : List Nat)
        (m : String) (inv : Bool),
      handle_generation_request gen req = (.file b m, inv) →
      ∃ q, (gen q).data = .bytes b ∧ (gen q).mime = some m) := by
  refine ⟨?_, ?_, ?_⟩
  · intro o ck fresh b m s h
    obtain ⟨i, r, hi1, hi2, hrest⟩ :=
      appAttempts_image_source o 3 0 ck fresh b m s h
    exact ⟨i, r, by omega, hrest⟩
  · intro o fresh b m s h
    obtain ⟨i, r, hi1, hi2, hrest⟩ :=
      indexAttempts_image_source o 3 0 fresh b m s h
    exact ⟨i, r, by omega, hrest⟩
  · intro gen req b m inv h
    exact handler_file_source gen req b m inv h

theorem C7_witness :
    ∃ i r, i < 3 ∧
      (AttemptOutcome.response ⟨200, [7], "image/png", "x"⟩ :
        AttemptOutcome) = .response r ∧
      r.status_code = 200 ∧ pyTruthyBytes r.content = true ∧
      strContains r.content_type "image" = true ∧
      ([7] : List Nat) = r.content ∧
      (some "image/png" : Option String) = some r.content_type ∧
      (200 : Nat) = 200 :=
  C7_image_only_from_image_success.1
    (fun _ => .response ⟨200, [7], "image/png", "x"⟩)
    (some 0) 1 [7] (some "image/png") 200 (by decide)

/-- C9: any inbound request whose prompt is missing, empty, or
whitespace-only is answered with a JSON failure carrying HTTP 400, and
the core `get_magic_image` is never invoked. -/
theorem C9_blank_prompt_rejected (gen : String → GenResult)
    (req : InboundRequest) (h : requestBlank req = true) :
    ∃ d, handle_generation_request gen req = (.json d 400, false) := by
  cases req with
  | postInvalidJson e => exact ⟨_, rfl⟩
  | postNoBody => exact ⟨_, rfl⟩
  | get p =>
    cases p with
    | none => exact ⟨_, rfl⟩
    | some s =>
      simp only [requestBlank, promptBlank, Bool.or_eq_true,
        decide_eq_true_eq] at h
      by_cases hs : s = ""
      · subst hs
        exact ⟨.errObj "Missing 'prompt' parameter" none, by
          simp [handle_generation_request]⟩
      · have hstrip : pyStrip s = "" := by
          rcases h with h | h
          · exact absurd h hs
          · exact h
        exact ⟨.errObj "Prompt cannot be empty" none, by
          simp [handle_generation_request, checkAndGenerate, hs, hstrip]⟩
  | post p =>
    cases p with
    | none => exact ⟨_, rfl⟩
    | some s =>
      simp only [requestBlank, promptBlank, Bool.or_eq_true,
        decide_eq_true_eq] at h
      rcases h with h | h
      · subst h
        exact ⟨.errObj "Prompt cannot be empty" none, by
          simp [handle_generation_request, checkAndGenerate]⟩
      · exact ⟨.errObj "Prompt cannot be empty" none, by
          simp [handle_generation_request, checkAndGenerate, h]⟩

theorem C9_witness :
    ∃ d, handle_generation_request
        (fun _ => ⟨.bytes [1], some "image/png", 200⟩)
        (.get (some " ")) = (.json d 400, false) :=
  C9_blank_prompt_rejected
    (fun _ => ⟨.bytes [1], some "image/png", 200⟩)
    (.get (some " ")) (by decide)
